import Mathlib

/-!
Verification of the RakshaSetu core ledger / identity registry against its
implementation.  The definitions below are shallow embeddings of:

* `blockchain/src/services/simpleBlockchain.ts` — the in-process hash-linked
  ledger (`SimpleBlockchain`): genesis creation, proof-of-work mining,
  `addBlock`, `validateChain`, `createDigitalID`, `verifyDigitalID`;
* `blockchain/contracts/DigitalID.sol` — the Solidity identity registry:
  `createIdentity`, `updateIdentity`, `verifyIdentity`, `deactivateIdentity`,
  `addRole`, `removeRole`, with its mappings and events;
* `blockchain/src/services/qrService.ts` — the QR token codec
  (`generateDigitalIDQR` / `generateWalletQR` / `generateTransactionQR` /
  `parseQRCode`);
* `blockchain/src/services/DigitalIDService.ts` — `generateQRCodeData`,
  `validateQRCodeData`, and the in-process verification queue;
* `blockchain/src/models/DigitalID.ts` — the Mongoose schema whose setters
  and validators govern the durable backend of `createDigitalID`.

Machine integers are `Nat` with explicit reduction mod `2 ^ 32` where the
source relies on 32-bit wraparound (inside SHA-256 only; all JavaScript
numbers that appear are safe integers).  Fallible operations return
`Except String` mirroring `require`/`throw`; JavaScript `Date.now()`,
`crypto.randomUUID()` and Mongo-assigned ids enter as explicit parameters.
-/

set_option maxRecDepth 100000

namespace RakshaSetu

/-! ## SHA-256

`crypto.createHash('sha256').update(s).digest('hex')` over the UTF-8 bytes of
`s`, implemented executably on `Nat` (all words are kept `< 2 ^ 32`).
-/

/-- 2^32, the modulus of SHA-256 word arithmetic. -/
def w32 : Nat := 4294967296

/-- Addition mod 2^32. -/
def add32 (a b : Nat) : Nat := (a + b) % w32

/-- Bitwise complement within 32 bits. -/
def not32 (x : Nat) : Nat := x ^^^ 4294967295

/-- Right rotation of a 32-bit word by `n`. -/
def rotr32 (n x : Nat) : Nat := (x >>> n) ||| ((x <<< (32 - n)) % w32)

/-- SHA-256 `Ch` function. -/
def ch32 (x y z : Nat) : Nat := (x &&& y) ^^^ (not32 x &&& z)

/-- SHA-256 `Maj` function. -/
def maj32 (x y z : Nat) : Nat := (x &&& y) ^^^ (x &&& z) ^^^ (y &&& z)

/-- SHA-256 `Σ₀`. -/
def bigSigma0 (x : Nat) : Nat := rotr32 2 x ^^^ rotr32 13 x ^^^ rotr32 22 x

/-- SHA-256 `Σ₁`. -/
def bigSigma1 (x : Nat) : Nat := rotr32 6 x ^^^ rotr32 11 x ^^^ rotr32 25 x

/-- SHA-256 `σ₀`. -/
def smallSigma0 (x : Nat) : Nat := rotr32 7 x ^^^ rotr32 18 x ^^^ (x >>> 3)

/-- SHA-256 `σ₁`. -/
def smallSigma1 (x : Nat) : Nat := rotr32 17 x ^^^ rotr32 19 x ^^^ (x >>> 10)

/-- The 64 SHA-256 round constants (decimal). -/
def sha256K : List Nat :=
  [1116352408, 1899447441, 3049323471, 3921009573, 961987163,
   1508970993, 2453635748, 2870763221, 3624381080, 310598401,
   607225278, 1426881987, 1925078388, 2162078206, 2614888103,
   3248222580, 3835390401, 4022224774, 264347078, 604807628,
   770255983, 1249150122, 1555081692, 1996064986, 2554220882,
   2821834349, 2952996808, 3210313671, 3336571891, 3584528711,
   113926993, 338241895, 666307205, 773529912, 1294757372,
   1396182291, 1695183700, 1986661051, 2177026350, 2456956037,
   2730485921, 2820302411, 3259730800, 3345764771, 3516065817,
   3600352804, 4094571909, 275423344, 430227734, 506948616,
   659060556, 883997877, 958139571, 1322822218, 1537002063,
   1747873779, 1955562222, 2024104815, 2227730452, 2361852424,
   2428436474, 2756734187, 3204031479, 3329325298]

/-- The SHA-256 initial hash state (decimal). -/
def sha256H0 : List Nat :=
  [1779033703, 3144134277, 1013904242, 2773480762,
   1359893119, 2600822924, 528734635, 1541459225]

/-- UTF-8 encoding of one Unicode scalar value. -/
def utf8Bytes (c : Char) : List Nat :=
  let n := c.toNat
  if n < 0x80 then [n]
  else if n < 0x800 then
    [0xC0 ||| (n >>> 6), 0x80 ||| (n &&& 0x3F)]
  else if n < 0x10000 then
    [0xE0 ||| (n >>> 12), 0x80 ||| ((n >>> 6) &&& 0x3F), 0x80 ||| (n &&& 0x3F)]
  else
    [0xF0 ||| (n >>> 18), 0x80 ||| ((n >>> 12) &&& 0x3F),
     0x80 ||| ((n >>> 6) &&& 0x3F), 0x80 ||| (n &&& 0x3F)]

/-- The UTF-8 bytes of a string. -/
def strBytes (s : String) : List Nat := s.data.flatMap utf8Bytes

/-- `w` big-endian bytes of `v`. -/
def beBytes (w v : Nat) : List Nat :=
  match w with
  | 0 => []
  | k + 1 => beBytes k (v >>> 8) ++ [v &&& 255]

/-- SHA-256 padding: append `0x80`, zeros to 56 mod 64, and the 64-bit
big-endian bit length. -/
def padBytes (msg : List Nat) : List Nat :=
  let zeros := (64 - ((msg.length + 9) % 64)) % 64
  msg ++ [0x80] ++ List.replicate zeros 0 ++ beBytes 8 (8 * msg.length)

/-- Group bytes into big-endian 32-bit words. -/
def toWords : List Nat → List Nat
  | a :: b :: c :: d :: rest =>
    ((((a <<< 8) ||| b) <<< 8 ||| c) <<< 8 ||| d) :: toWords rest
  | _ => []

/-- Extend a 16-word block by `fuel` schedule words (48 for SHA-256). -/
def extendWords (ws : List Nat) : Nat → List Nat
  | 0 => ws
  | f + 1 =>
    let n := ws.length
    let w := add32 (add32 (smallSigma1 (ws.getD (n - 2) 0)) (ws.getD (n - 7) 0))
      (add32 (smallSigma0 (ws.getD (n - 15) 0)) (ws.getD (n - 16) 0))
    extendWords (ws ++ [w]) f

/-- One SHA-256 round: update the 8-word working state with constant `k` and
schedule word `w`. -/
def sha256Round (st : List Nat) (kw : Nat × Nat) : List Nat :=
  match st with
  | [a, b, c, d, e, f, g, h] =>
    let t1 := add32 h (add32 (bigSigma1 e) (add32 (ch32 e f g) (add32 kw.1 kw.2)))
    let t2 := add32 (bigSigma0 a) (maj32 a b c)
    [add32 t1 t2, a, b, c, add32 d t1, e, f, g]
  | other => other

/-- Compress one 16-word block into the hash state. -/
def sha256Compress (st : List Nat) (block : List Nat) : List Nat :=
  let final := (sha256K.zip (extendWords block 48)).foldl sha256Round st
  (st.zip final).map (fun p => add32 p.1 p.2)

/-- Fold the compression function over consecutive 64-byte blocks (`fuel`
bounds the number of blocks; callers pass the byte count). -/
def sha256Core (fuel : Nat) (st : List Nat) (bytes : List Nat) : List Nat :=
  match fuel with
  | 0 => st
  | f + 1 =>
    match bytes with
    | [] => st
    | _ => sha256Core f (sha256Compress st (toWords (bytes.take 64))) (bytes.drop 64)

/-- A lowercase hexadecimal digit. -/
def hexDigit (n : Nat) : Char :=
  if n < 10 then Char.ofNat (48 + n) else Char.ofNat (87 + n)

/-- Eight lowercase hex digits of a 32-bit word, most significant first. -/
def toHex8 (v : Nat) : List Char :=
  (List.range 8).map (fun i => hexDigit ((v >>> (28 - 4 * i)) &&& 15))

/-- `crypto.createHash('sha256').update(s).digest('hex')`: the lowercase hex
digest of the UTF-8 bytes of `s`. -/
def sha256hex (s : String) : String :=
  let padded := padBytes (strBytes s)
  String.mk ((sha256Core padded.length sha256H0 padded).flatMap toHex8)

/-! ## LedgerChain — `SimpleBlockchain` (simpleBlockchain.ts)

The block structure and chain operations of `SimpleBlockchain`.  The model is
parametric in the hash function `Hf : String → String`, which stands for
`sha256hex`; universal tamper-detection theorems hold for every `Hf` with
explicit no-collision hypotheses, and concrete runs instantiate
`Hf := sha256hex`.

`Block.data` holds the `JSON.stringify` rendering of the block's payload
(`calculateHash` concatenates exactly that rendering); mutating the payload
mutates this string.
-/

/-- A block, as in the `Block` interface of simpleBlockchain.ts
(`data` holds the payload's JSON rendering). -/
structure Block where
  index : Nat
  timestamp : Nat
  data : String
  previousHash : String
  hash : String
  nonce : Nat
  deriving DecidableEq, Repr, Inhabited

/-- `calculateHash`: SHA-256 of
`index + timestamp + JSON.stringify(data) + previousHash + nonce`.
In JavaScript `index + timestamp` is numeric addition (both are numbers);
the subsequent `+` are string concatenations. -/
def calculateHash (Hf : String → String) (index timestamp : Nat)
    (data previousHash : String) (nonce : Nat) : String :=
  Hf (toString (index + timestamp) ++ data ++ previousHash ++ toString nonce)

/-- `JSON.stringify({ message: 'RakshaSetu Genesis Block' })`. -/
def genesisData : String := "\x7b\"message\":\"RakshaSetu Genesis Block\"\x7d"

/-- `createGenesisBlock()`: index 0, previousHash "0", nonce 0, hash computed
from the fields (the two `Date.now()` calls in the constructor are modelled as
the single timestamp `ts`). -/
def createGenesisBlock (Hf : String → String) (ts : Nat) : Block :=
  { index := 0
    timestamp := ts
    data := genesisData
    previousHash := "0"
    hash := calculateHash Hf 0 ts genesisData "0" 0
    nonce := 0 }

/-- `this.difficulty = 2` from the `SimpleBlockchain` constructor. -/
def difficulty : Nat := 2

/-- The admission check of `mineBlock`:
`block.hash.substring(0, difficulty) === '0'.repeat(difficulty)`. -/
def hashMeetsTarget (d : Nat) (h : String) : Bool :=
  h.take d == String.mk (List.replicate d '0')

/-- `block.hash !== this.calculateHash(...)` — the per-block hash check of
`validateChain`. -/
def blockHashOk (Hf : String → String) (b : Block) : Bool :=
  b.hash == calculateHash Hf b.index b.timestamp b.data b.previousHash b.nonce

/-- `chain[chain.length - 1]`, the tip read by `addBlock`. -/
def lastBlock (c : List Block) : Block := c.getLastD default

/-- The result of `addBlock(data)` at tip `prev`: the mined block as produced
by `mineBlock` — linked to `prev`, hash recomputed from its own fields with
the final nonce, meeting the target, and the nonce is the first one that
meets it (the loop increments from 0). -/
def minedFrom (Hf : String → String) (prev : Block) (data : String) (ts : Nat)
    (b : Block) : Prop :=
  b.index = prev.index + 1 ∧ b.timestamp = ts ∧ b.data = data ∧
  b.previousHash = prev.hash ∧
  b.hash = calculateHash Hf b.index ts data prev.hash b.nonce ∧
  hashMeetsTarget difficulty b.hash = true ∧
  ∀ m < b.nonce,
    hashMeetsTarget difficulty (calculateHash Hf b.index ts data prev.hash m) = false

/-- The chains reachable from the constructor state by `addBlock` calls:
`[createGenesisBlock()]` extended one mined block at a time. -/
inductive ChainBuilt (Hf : String → String) : List Block → Prop
  | genesis (ts : Nat) : ChainBuilt Hf [createGenesisBlock Hf ts]
  | append (c : List Block) (data : String) (ts : Nat) (b : Block) :
      ChainBuilt Hf c → minedFrom Hf (lastBlock c) data ts b →
      ChainBuilt Hf (c ++ [b])

/-- The loop body of `validateChain` from position 1 on: each block's hash
must recompute from its own fields and its `previousHash` must equal the
previous block's `hash`. -/
def validateFrom (Hf : String → String) (prev : Block) : List Block → Bool
  | [] => true
  | b :: rest =>
    blockHashOk Hf b && (b.previousHash == prev.hash) && validateFrom Hf b rest

/-- `validateChain()`: runs the two checks for every `i ≥ 1`. -/
def validateChain (Hf : String → String) : List Block → Bool
  | [] => true
  | g :: rest => validateFrom Hf g rest

/-- The per-step relation `validateChain` checks between consecutive blocks. -/
def validStep (Hf : String → String) (x y : Block) : Prop :=
  blockHashOk Hf y = true ∧ y.previousHash = x.hash

/-- The relation `addBlock` establishes between a tip and the block it
appends: hash correctness, linkage, index increment and the admission
target. -/
def minedStep (Hf : String → String) (x y : Block) : Prop :=
  blockHashOk Hf y = true ∧ y.previousHash = x.hash ∧
  y.index = x.index + 1 ∧ hashMeetsTarget difficulty y.hash = true

/-- A concrete run of `addBlock('x')` on the genesis chain at the timestamps
below: nonce 3 is the first one whose hash starts with two zero nibbles. -/
def minedBlock1 : Block :=
  { index := 1
    timestamp := 1700000000008
    data := "\"x\""
    previousHash := (createGenesisBlock sha256hex 1700000000000).hash
    hash := calculateHash sha256hex 1 1700000000008 "\"x\""
      (createGenesisBlock sha256hex 1700000000000).hash 3
    nonce := 3 }

/-- The chain after the constructor plus one `addBlock('x')` call. -/
def demoChain : List Block :=
  [createGenesisBlock sha256hex 1700000000000, minedBlock1]

/-! ## IdentityRegistry — the `DigitalID` Solidity contract (DigitalID.sol)

Addresses are modelled as strings, with `addressZero` standing for
`address(0)`.  Solidity mappings are association lists read through a
total lookup with the type's zero value as default (`0` for `uint256`, the
all-zero `SolIdentity` for the identities mapping).  `msg.sender` and
`block.timestamp` enter as explicit parameters; `require(cond, msg)` is
`Except.error msg`; a reverted call returns no new state (all writes are
rolled back).  `keccak256(bytes(a)) == keccak256(bytes(b))` on strings is
string equality.
-/

/-- `address(0)`. -/
def addressZero : String := "0x0000000000000000000000000000000000000000"

/-- The `Identity` struct of DigitalID.sol. -/
structure SolIdentity where
  id : Nat
  name : String
  email : String
  nationality : String
  aadhaarHash : String
  passportHash : String
  emergencyContact : String
  createdAt : Nat
  updatedAt : Nat
  isActive : Bool
  isVerified : Bool
  walletAddress : String
  roles : List String
  deriving DecidableEq, Repr, Inhabited

/-- The zero value of the `Identity` struct (what an unset mapping slot
holds). -/
def defaultIdentity : SolIdentity :=
  { id := 0, name := "", email := "", nationality := "", aadhaarHash := ""
    passportHash := "", emergencyContact := "", createdAt := 0, updatedAt := 0
    isActive := false, isVerified := false, walletAddress := addressZero
    roles := [] }

/-- The events of DigitalID.sol. -/
inductive SolEvent where
  | identityCreated (id : Nat) (wallet name email : String) (ts : Nat)
  | identityUpdated (id : Nat) (wallet : String) (ts : Nat)
  | identityVerified (id : Nat) (verifier : String) (ts : Nat)
  | identityDeactivated (id : Nat) (wallet : String) (ts : Nat)
  | roleAdded (id : Nat) (role : String) (ts : Nat)
  | roleRemoved (id : Nat) (role : String) (ts : Nat)
  deriving DecidableEq, Repr

/-- The contract's storage plus its emitted event log. -/
structure SolState where
  owner : String
  idCounter : Nat
  identities : List (Nat × SolIdentity)
  walletToIdentity : List (String × Nat)
  emailToIdentity : List (String × Nat)
  aadhaarToIdentity : List (String × Nat)
  passportToIdentity : List (String × Nat)
  events : List SolEvent
  deriving DecidableEq, Repr

/-- Read a `mapping(string => uint256)` (default 0). -/
def lookupNat (m : List (String × Nat)) (k : String) : Nat :=
  ((m.find? (fun p => p.1 == k)).map Prod.snd).getD 0

/-- Write a `mapping(string => uint256)` slot (newest entry shadows). -/
def insertNat (m : List (String × Nat)) (k : String) (v : Nat) :
    List (String × Nat) := (k, v) :: m

/-- Read `identities[i]` (default: the zero struct). -/
def getIdentity (s : SolState) (i : Nat) : SolIdentity :=
  ((s.identities.find? (fun p => p.1 == i)).map Prod.snd).getD defaultIdentity

/-- Write `identities[i]`. -/
def setIdentity (s : SolState) (i : Nat) (idn : SolIdentity) : SolState :=
  { s with identities := (i, idn) :: s.identities }

/-- `createIdentity(_name, _email, _nationality, _aadhaarHash, _passportHash,
_emergencyContact, _roles)` called by `sender` at time `now`. -/
def createIdentity (s : SolState) (sender : String) (now : Nat)
    (name email nationality aadhaarHash passportHash emergencyContact : String)
    (roles : List String) : Except String SolState :=
  if lookupNat s.walletToIdentity sender ≠ 0 then
    .error "Identity already exists"
  else if lookupNat s.emailToIdentity email ≠ 0 then
    .error "Email already registered"
  else if name = "" then .error "Name cannot be empty"
  else if email = "" then .error "Email cannot be empty"
  else
    .ok { s with
      idCounter := s.idCounter + 1
      identities := (s.idCounter + 1,
        { id := s.idCounter + 1, name := name, email := email
          nationality := nationality, aadhaarHash := aadhaarHash
          passportHash := passportHash, emergencyContact := emergencyContact
          createdAt := now, updatedAt := now, isActive := true
          isVerified := false, walletAddress := sender
          roles := roles }) :: s.identities
      walletToIdentity := insertNat s.walletToIdentity sender (s.idCounter + 1)
      emailToIdentity := insertNat s.emailToIdentity email (s.idCounter + 1)
      aadhaarToIdentity :=
        if aadhaarHash ≠ "" then
          insertNat s.aadhaarToIdentity aadhaarHash (s.idCounter + 1)
        else s.aadhaarToIdentity
      passportToIdentity :=
        if passportHash ≠ "" then
          insertNat s.passportToIdentity passportHash (s.idCounter + 1)
        else s.passportToIdentity
      events := s.events ++
        [.identityCreated (s.idCounter + 1) sender name email now] }

/-- `updateIdentity(_id, _name, _email, _nationality, _emergencyContact)`,
guarded by `onlyIdentityOwner` then `identityExists`.  Note: no check of
`isActive`. -/
def updateIdentity (s : SolState) (sender : String) (now : Nat) (i : Nat)
    (name email nationality emergencyContact : String) :
    Except String SolState :=
  if (getIdentity s i).walletAddress ≠ sender then .error "Not identity owner"
  else if (getIdentity s i).walletAddress = addressZero then
    .error "Identity does not exist"
  else if (getIdentity s i).email ≠ email then
    if lookupNat s.emailToIdentity email ≠ 0 then
      .error "Email already registered"
    else
      .ok { setIdentity s i
              { getIdentity s i with
                name := name
                email := email
                nationality := nationality
                emergencyContact := emergencyContact
                updatedAt := now } with
            emailToIdentity :=
              insertNat (insertNat s.emailToIdentity (getIdentity s i).email 0)
                email i
            events := s.events ++ [.identityUpdated i sender now] }
  else
    .ok { setIdentity s i
            { getIdentity s i with
              name := name
              email := email
              nationality := nationality
              emergencyContact := emergencyContact
              updatedAt := now } with
          events := s.events ++ [.identityUpdated i sender now] }

/-- `verifyIdentity(_id)`, guarded by `onlyOwner` then `identityExists`.
Note: no check of `isActive`, and nothing stored beyond the `isVerified`
flag — verifier and time appear only in the event. -/
def verifyIdentity (s : SolState) (sender : String) (now : Nat) (i : Nat) :
    Except String SolState :=
  if sender ≠ s.owner then .error "Not the owner"
  else if (getIdentity s i).walletAddress = addressZero then
    .error "Identity does not exist"
  else
    .ok { setIdentity s i { getIdentity s i with isVerified := true } with
          events := s.events ++ [.identityVerified i sender now] }

/-- `deactivateIdentity(_id)`, guarded by `onlyIdentityOwner` then
`identityExists`: sets `isActive = false` and nothing else. -/
def deactivateIdentity (s : SolState) (sender : String) (now : Nat) (i : Nat) :
    Except String SolState :=
  if (getIdentity s i).walletAddress ≠ sender then .error "Not identity owner"
  else if (getIdentity s i).walletAddress = addressZero then
    .error "Identity does not exist"
  else
    .ok { setIdentity s i { getIdentity s i with isActive := false } with
          events := s.events ++ [.identityDeactivated i sender now] }

/-- `addRole(_id, _role)`: pushes unconditionally (no membership check, no
`isActive` check). -/
def addRole (s : SolState) (sender : String) (now : Nat) (i : Nat)
    (role : String) : Except String SolState :=
  if (getIdentity s i).walletAddress ≠ sender then .error "Not identity owner"
  else if (getIdentity s i).walletAddress = addressZero then
    .error "Identity does not exist"
  else
    .ok { setIdentity s i
            { getIdentity s i with roles := (getIdentity s i).roles ++ [role] }
          with events := s.events ++ [.roleAdded i role now] }

/-- `removeRole(_id, _roleIndex)`: requires `_roleIndex < roles.length`,
moves the last element into position `_roleIndex`, pops, and then emits
`RoleRemoved(_id, identities[_id].roles[_roleIndex], ...)` — a read at
`_roleIndex` of the ALREADY-POPPED array, which panics (reverting the whole
call) when `_roleIndex` was the last valid index. -/
def removeRole (s : SolState) (sender : String) (now : Nat) (i : Nat)
    (roleIndex : Nat) : Except String SolState :=
  if (getIdentity s i).walletAddress ≠ sender then .error "Not identity owner"
  else if (getIdentity s i).walletAddress = addressZero then
    .error "Identity does not exist"
  else if roleIndex < (getIdentity s i).roles.length then
    match (((getIdentity s i).roles.set roleIndex
        ((getIdentity s i).roles.getLastD "")).dropLast).get? roleIndex with
    | none => .error "panic: array out-of-bounds access"
    | some r =>
      .ok { setIdentity s i
              { getIdentity s i with roles :=
                  ((getIdentity s i).roles.set roleIndex
                    ((getIdentity s i).roles.getLastD "")).dropLast } with
            events := s.events ++ [.roleRemoved i r now] }
  else .error "Invalid role index"

/-- A populated single-identity contract state used for concrete runs:
identity 1 owned by wallet `0xAAA1` with the single role "tourist". -/
def solDemoIdentity : SolIdentity :=
  { id := 1, name := "Asha", email := "asha@x.com", nationality := "IN"
    aadhaarHash := "", passportHash := "", emergencyContact := "112"
    createdAt := 1, updatedAt := 1, isActive := true, isVerified := false
    walletAddress := "0xAAA1", roles := ["tourist"] }

/-- Contract state holding exactly `solDemoIdentity`. -/
def solDemoState : SolState :=
  { owner := "0xADMIN", idCounter := 1
    identities := [(1, solDemoIdentity)]
    walletToIdentity := [("0xAAA1", 1)]
    emailToIdentity := [("asha@x.com", 1)]
    aadhaarToIdentity := [], passportToIdentity := [], events := [] }

/-- A two-role variant of `solDemoState` (roles "tourist", "guide_lead"). -/
def solTwoRoleState : SolState :=
  { solDemoState with identities :=
      [(1, { solDemoIdentity with roles := ["tourist", "guide_lead"] })] }

/-- `solDemoState` with an aadhaar hash already registered (for showing that
`createIdentity` never rejects duplicate aadhaar/passport hashes). -/
def solAadhaarState : SolState :=
  { solDemoState with aadhaarToIdentity := [("HASH1", 1)] }

/-! ## StorageAdapter — `createDigitalID` and its two backends
(simpleBlockchain.ts 156–253, models/DigitalID.ts)

`createDigitalID` probes `mongoose.connection.readyState === 1` INSIDE the
call; that per-call probe is the `connected : Bool` parameter.  The durable
branch goes through `DigitalID.create`, i.e. the Mongoose schema's setters
(trim/lowercase) and validators (required, maxlength, email regex, role
enum, wallet regex, unique hash); the in-memory branch builds a plain object
with no validation or normalization.  `Date.now()` values and the record id
(Mongo ObjectId / `crypto.randomUUID()`) enter as parameters.  The method
ends with `this.addBlock({type:'digital_id', ...})`, which appends one mined
block; mining is the `ChainBuilt` relation, so the model returns the `chain`
field unchanged together with the JSON payload handed to `addBlock`. -/

/-- The `DigitalID` record of simpleBlockchain.ts (also the shape of a
Mongo document of models/DigitalID.ts, with `id` holding `_id`). -/
structure SBDigitalID where
  id : String
  userId : String
  name : String
  email : String
  role : String
  walletAddress : String
  timestamp : Nat
  hash : String
  verified : Bool
  deriving DecidableEq, Repr

/-- The `userData` argument of `createDigitalID`. -/
structure CreateInput where
  userId : String
  name : String
  email : String
  role : String
  walletAddress : String
  deriving DecidableEq, Repr

/-- JSON string escaping as `JSON.stringify` performs it. -/
def jsonEscapeChar (c : Char) : List Char :=
  if c = '"' then ['\\', '"']
  else if c = '\\' then ['\\', '\\']
  else if c = Char.ofNat 8 then ['\\', 'b']
  else if c = Char.ofNat 9 then ['\\', 't']
  else if c = Char.ofNat 10 then ['\\', 'n']
  else if c = Char.ofNat 12 then ['\\', 'f']
  else if c = Char.ofNat 13 then ['\\', 'r']
  else if c.toNat < 32 then
    ['\\', 'u', '0', '0', hexDigit (c.toNat >>> 4), hexDigit (c.toNat &&& 15)]
  else [c]

/-- A JSON string literal. -/
def jsonStr (s : String) : String :=
  "\"" ++ String.mk (s.data.flatMap jsonEscapeChar) ++ "\""

/-- `JSON.stringify({userId, name, email, role, walletAddress, timestamp})`
— the digest input of `createDigitalID` (simpleBlockchain.ts 166–176). -/
def createHashPreimage (inp : CreateInput) (ts : Nat) : String :=
  "\x7b\"userId\":" ++ jsonStr inp.userId ++ ",\"name\":" ++ jsonStr inp.name ++
  ",\"email\":" ++ jsonStr inp.email ++ ",\"role\":" ++ jsonStr inp.role ++
  ",\"walletAddress\":" ++ jsonStr inp.walletAddress ++
  ",\"timestamp\":" ++ toString ts ++ "\x7d"

/-- The content hash of a new digital ID. -/
def sbContentHash (inp : CreateInput) (ts : Nat) : String :=
  sha256hex (createHashPreimage inp ts)

/-- `\w` of a JavaScript regex: ASCII letters, digits, underscore. -/
def isWordChar (c : Char) : Bool := c.isAlphanum || c == '_'

/-- A separator inside the schema's email regex: `.` or `-`. -/
def isSepChar (c : Char) : Bool := c == '.' || c == '-'

/-- Scan for the tail of `\w+([.-]?\w+)*`: that regex accepts exactly the
strings over word/separator characters that start with a word character and
in which every separator is immediately followed by a word character. -/
def atomTail : List Char → Bool
  | [] => true
  | c :: rest =>
    if isWordChar c then atomTail rest
    else if isSepChar c then
      match rest with
      | [] => false
      | d :: _ => isWordChar d && atomTail rest
    else false

/-- `\w+([.-]?\w+)*` on a whole character list. -/
def atomsOk (cs : List Char) : Bool :=
  match cs with
  | [] => false
  | c :: _ => isWordChar c && atomTail cs

/-- `(\.\w{2,3})+$`: one or more groups of a dot followed by exactly two or
three word characters (the group boundary is forced: a fourth word character
cannot start a new group without a dot).  Structured with explicit fuel so
that it evaluates by kernel reduction; the fuel is the list length, which
strictly bounds the recursion. -/
def tldOkF : Nat → List Char → Bool
  | 0, _ => false
  | fuel + 1, '.' :: a :: b :: rest =>
    isWordChar a && isWordChar b &&
    (match rest with
     | [] => true
     | c :: rest2 =>
       if c = '.' then tldOkF fuel (c :: rest2)
       else isWordChar c && (rest2.isEmpty || tldOkF fuel rest2))
  | _ + 1, _ => false

/-- `(\.\w{2,3})+$` anchored on the whole list. -/
def tldOk (cs : List Char) : Bool := tldOkF cs.length cs

/-- `\w+([.-]?\w+)*(\.\w{2,3})+$` — the domain part: some split into an
atom run and a TLD run (regex backtracking accepts iff such a split
exists). -/
def domainOk (cs : List Char) : Bool :=
  (List.range (cs.length + 1)).any
    (fun k => atomsOk (cs.take k) && tldOk (cs.drop k))

/-- The Mongoose schema's email regex
`/^\w+([.-]?\w+)*@\w+([.-]?\w+)*(\.\w{2,3})+$/`: a split at an `@` with an
atom run before it and a valid domain after it (word/separator characters
never include `@`, so the split is the regex's own). -/
def emailMatch (s : String) : Bool :=
  (List.range s.data.length).any (fun k =>
    s.data.getD k ' ' == '@' &&
    atomsOk (s.data.take k) &&
    domainOk (s.data.drop (k + 1)))

/-- One hexadecimal character, either case. -/
def isHexChar (c : Char) : Bool :=
  c.isDigit || ('a' ≤ c && c ≤ 'f') || ('A' ≤ c && c ≤ 'F')

/-- The schema's wallet validator `/^0x[a-fA-F0-9]{40}$/`. -/
def walletFormatOk (s : String) : Bool :=
  s.data.length == 42 && s.data.take 2 == ['0', 'x'] &&
  (s.data.drop 2).all isHexChar

/-- The `role` enum of the Mongoose schema. -/
def roleValues : List String := ["admin", "police", "tourism", "tourist"]

/-- The `trim: true` setter (JavaScript `String.prototype.trim`): drop
whitespace from both ends. -/
def jsTrim (s : String) : String :=
  String.mk
    (((s.data.dropWhile Char.isWhitespace).reverse.dropWhile
      Char.isWhitespace).reverse)

/-- The `lowercase: true` setter (JavaScript `toLowerCase`, ASCII range). -/
def jsToLower (s : String) : String := String.mk (s.data.map Char.toLower)

/-- The validations `DigitalID.create` runs (models/DigitalID.ts): required
strings non-empty, trimmed name of at most 100 characters, lowercased
trimmed email matching the schema regex, role in the enum, wallet format,
and the unique index on `hash` against the stored collection. -/
def mongoChecks (dbDocs : List SBDigitalID) (doc : SBDigitalID) : Bool :=
  doc.userId != "" &&
  jsTrim doc.name != "" && decide ((jsTrim doc.name).length ≤ 100) &&
  jsToLower (jsTrim doc.email) != "" &&
  emailMatch (jsToLower (jsTrim doc.email)) &&
  roleValues.contains doc.role &&
  walletFormatOk doc.walletAddress &&
  doc.hash != "" && dbDocs.all (fun d => d.hash != doc.hash)

/-- `DigitalID.create(...)`: validate, apply the trim/lowercase setters, and
store; any validation or duplicate-key failure rejects. -/
def mongoCreate (dbDocs : List SBDigitalID) (doc : SBDigitalID) :
    Except String SBDigitalID :=
  if mongoChecks dbDocs doc then
    .ok { doc with
          name := jsTrim doc.name
          email := jsToLower (jsTrim doc.email) }
  else .error "ValidationError"

/-- The parts of a `SimpleBlockchain` instance the registry operations
touch: the chain, the in-memory `digitalIDs` array, and the Mongo
collection (`dbDocs`). -/
structure SBState where
  chain : List Block
  digitalIDs : List SBDigitalID
  dbDocs : List SBDigitalID
  deriving DecidableEq, Repr

/-- The record `createDigitalID` builds before branching: hash over the
first `Date.now()` (`tsHash`), record timestamp from the second
(`tsRecord`), id from Mongo or `crypto.randomUUID()` (`newId`). -/
def newDoc (inp : CreateInput) (tsHash tsRecord : Nat) (newId : String) :
    SBDigitalID :=
  { id := newId, userId := inp.userId, name := inp.name, email := inp.email
    role := inp.role, walletAddress := inp.walletAddress
    timestamp := tsRecord, hash := sbContentHash inp tsHash
    verified := false }

/-- `createDigitalID(userData)` (simpleBlockchain.ts 156–253).  No
uniqueness check of any kind is performed; the `connected` parameter is the
per-call `mongoose.connection.readyState === 1` probe; the catch block
rethrows every backend failure as "Failed to create digital ID".  Returns
the new state, the returned record, and the payload passed to
`this.addBlock`. -/
def createDigitalID (connected : Bool) (s : SBState) (inp : CreateInput)
    (tsHash tsRecord : Nat) (newId : String) :
    Except String (SBState × SBDigitalID × String) :=
  match (if connected then mongoCreate s.dbDocs (newDoc inp tsHash tsRecord newId)
         else .ok (newDoc inp tsHash tsRecord newId)) with
  | .error _ => .error "Failed to create digital ID"
  | .ok doc =>
    .ok ({ s with
            digitalIDs := s.digitalIDs ++ [doc]
            dbDocs := if connected then s.dbDocs ++ [doc] else s.dbDocs },
         doc,
         "\x7b\"type\":\"digital_id\",\"digitalID\":" ++ jsonStr doc.id ++
           ",\"hash\":" ++ jsonStr doc.hash ++ ",\"verified\":false\x7d")

/-- In-place mutation of the first record whose `hash` matches, as
`verifyDigitalID` performs through the found object reference. -/
def setVerifiedFirst : List SBDigitalID → String → List SBDigitalID
  | [], _ => []
  | d :: rest, h =>
    if d.hash == h then { d with verified := true } :: rest
    else d :: setVerifiedFirst rest h

/-- `verifyDigitalID(digitalIDHash)` (simpleBlockchain.ts 255–264): find by
hash, set `verified = true` in place, return the record (or null).  Note: it
never calls `addBlock` — no ledger block records the verification. -/
def verifyDigitalID (s : SBState) (h : String) : SBState × Option SBDigitalID :=
  match s.digitalIDs.find? (fun d => d.hash == h) with
  | none => (s, none)
  | some d =>
    ({ s with digitalIDs := setVerifiedFirst s.digitalIDs h },
     some { d with verified := true })

/-- An `IdentityVerification` entry of the DigitalIDService queue. -/
structure Verification where
  identityId : Nat
  verifierAddress : String
  verificationDate : Nat
  status : String
  deriving DecidableEq, Repr

/-- The queue update of `DigitalIDService.verifyDigitalIdentity`
(DigitalIDService.ts 158–187): if an entry for `i` exists, set its status to
"approved" and overwrite verifier and date — the latest call wins. -/
def updateVerificationQueue (q : List (Nat × Verification)) (i : Nat)
    (verifier : String) (now : Nat) : List (Nat × Verification) :=
  q.map (fun p =>
    if p.1 == i then
      (p.1, { p.2 with
              status := "approved"
              verifierAddress := verifier
              verificationDate := now })
    else p)

/-- Concrete inputs for registry runs. -/
def ashaInput : CreateInput :=
  { userId := "u1", name := "Asha", email := "asha@x.com", role := "tourist"
    walletAddress := "0xaaaaaaaaaaaaaaaaaaaaaaaaaaaaaaaaaaaaaaaa" }

/-- A second user with the SAME email and a different wallet. -/
def belaInput : CreateInput :=
  { userId := "u2", name := "Bela", email := "asha@x.com", role := "tourist"
    walletAddress := "0xbbbbbbbbbbbbbbbbbbbbbbbbbbbbbbbbbbbbbbbb" }

/-- A user whose role is outside the schema enum. -/
def guideInput : CreateInput :=
  { userId := "u3", name := "Gopal", email := "gopal@x.com", role := "guide"
    walletAddress := "0xcccccccccccccccccccccccccccccccccccccccc" }

/-- A user with an email the Mongo backend normalizes. -/
def mixedCaseInput : CreateInput :=
  { userId := "u4", name := " Asha ", email := " Asha@X.com "
    role := "tourist"
    walletAddress := "0xdddddddddddddddddddddddddddddddddddddddd" }

/-- Registry state holding one record with Asha's email. -/
def ashaDoc : SBDigitalID := newDoc ashaInput 1700000000001 1700000000001 "id-1"

/-- An empty freshly-constructed instance. -/
def sbEmptyState : SBState :=
  { chain := [createGenesisBlock sha256hex 1700000000000]
    digitalIDs := [], dbDocs := [] }

/-- The instance after Asha's create. -/
def sbAshaState : SBState :=
  { chain := [createGenesisBlock sha256hex 1700000000000]
    digitalIDs := [ashaDoc], dbDocs := [] }

/-- The instance after Asha's create with the Mongo backend: her document is
also in the Mongo collection, so a repeat of the same content hash hits the
schema's unique index. -/
def sbDupHashState : SBState :=
  { chain := [createGenesisBlock sha256hex 1700000000000]
    digitalIDs := [ashaDoc], dbDocs := [ashaDoc] }

/-- A record with a known hash for verification runs. -/
def verDoc : SBDigitalID :=
  { id := "id-1", userId := "u1", name := "Asha", email := "asha@x.com"
    role := "tourist"
    walletAddress := "0xaaaaaaaaaaaaaaaaaaaaaaaaaaaaaaaaaaaaaaaa"
    timestamp := 5, hash := "h1", verified := false }

/-- The instance holding exactly `verDoc`. -/
def sbVerState : SBState :=
  { chain := [createGenesisBlock sha256hex 1700000000000]
    digitalIDs := [verDoc], dbDocs := [] }

/-! ## QRCodec (qrService.ts, DigitalIDService.ts 383–420)

The wire format is JSON; `JSON.parse ∘ JSON.stringify` is the identity on
the value trees that appear here (strings, safe integers, booleans, arrays,
objects; `undefined` optional fields are omitted by `stringify`), so tokens
travel as `Json` trees and a failed `JSON.parse` of foreign input is the
`none` case where the caller consumes one.  The TypeScript
`as QRCodeData` cast performs no structural check; the decoder below is
exact on every tree a `QRCodeData` serializes to, which is the domain the
round-trip and validation claims quantify over. -/

/-- A JSON value. -/
inductive Json where
  | str (s : String)
  | num (n : Nat)
  | bool (b : Bool)
  | null
  | arr (xs : List Json)
  | obj (fields : List (String × Json))
  deriving Repr

/-- The discriminator of `QRCodeData`. -/
inductive QRType where
  | digital_id
  | wallet
  | transaction
  deriving DecidableEq, Repr

/-- The wire name of each token type. -/
def qrTypeName : QRType → String
  | .digital_id => "digital_id"
  | .wallet => "wallet"
  | .transaction => "transaction"

/-- Inverse of `qrTypeName`. -/
def parseQRType (s : String) : Option QRType :=
  if s = "digital_id" then some .digital_id
  else if s = "wallet" then some .wallet
  else if s = "transaction" then some .transaction
  else none

/-- The `QRCodeData` interface of qrService.ts. -/
structure QRCodeData where
  userId : String
  walletAddress : String
  timestamp : Nat
  type : QRType
  data : Option Json

/-- `JSON.stringify(qrData)` as a tree: the four always-present fields plus
`data` when it is not `undefined`. -/
def qrToJson (qr : QRCodeData) : Json :=
  .obj ([("userId", .str qr.userId), ("walletAddress", .str qr.walletAddress),
         ("timestamp", .num qr.timestamp), ("type", .str (qrTypeName qr.type))]
    ++ (match qr.data with
        | none => []
        | some j => [("data", j)]))

/-- Object field lookup (`data.field` on a parsed JSON object). -/
def getField : Json → String → Option Json
  | .obj fs, k => (fs.find? (fun p => p.1 == k)).map Prod.snd
  | _, _ => none

/-- Replace one field of a JSON object (in-place token mutation). -/
def setField (j : Json) (k : String) (v : Json) : Json :=
  match j with
  | .obj fs => .obj (fs.map (fun p => if p.1 == k then (p.1, v) else p))
  | other => other

/-- `QRService.parseQRCode` (qrService.ts 108–122): `JSON.parse` then the
guard `if (!qrData.userId && !qrData.walletAddress) throw`, caught to
`null`.  JavaScript truthiness of the string fields: the empty string is
falsy. -/
def parseQRCode (j : Json) : Option QRCodeData :=
  match getField j "userId", getField j "walletAddress" with
  | some (.str u), some (.str w) =>
    if u = "" ∧ w = "" then none
    else
      match getField j "timestamp", getField j "type" with
      | some (.num ts), some (.str ty) =>
        match parseQRType ty with
        | some t => some { userId := u, walletAddress := w, timestamp := ts
                           type := t, data := getField j "data" }
        | none => none
      | _, _ => none
  | _, _ => none

/-- `generateDigitalIDQR(userId, walletAddress, additionalData?)`
(qrService.ts 16–42): the token it stringifies. -/
def generateDigitalIDQRData (userId walletAddress : String) (ts : Nat)
    (additionalData : Option Json) : QRCodeData :=
  { userId := userId, walletAddress := walletAddress, timestamp := ts
    type := .digital_id, data := additionalData }

/-- `generateWalletQR(walletAddress)` (qrService.ts 47–72). -/
def generateWalletQRData (walletAddress : String) (ts : Nat) : QRCodeData :=
  { userId := "", walletAddress := walletAddress, timestamp := ts
    type := .wallet, data := none }

/-- `generateTransactionQR(transactionHash, walletAddress)`
(qrService.ts 77–103). -/
def generateTransactionQRData (transactionHash walletAddress : String)
    (ts : Nat) : QRCodeData :=
  { userId := "", walletAddress := walletAddress, timestamp := ts
    type := .transaction
    data := some (.obj [("transactionHash", .str transactionHash)]) }

/-- The `IdentityData` shape `BlockchainService.mapContractIdentityToData`
produces (dates as numbers). -/
structure IdentityData where
  id : Nat
  name : String
  email : String
  nationality : String
  aadhaarHash : String
  passportHash : String
  emergencyContact : String
  createdAt : Nat
  updatedAt : Nat
  isActive : Bool
  isVerified : Bool
  walletAddress : String
  roles : List String
  deriving DecidableEq, Repr

/-- `DigitalIDService.generateQRCodeData(identity)` (383–396): the JSON it
stringifies. -/
def generateQRCodeData (identity : IdentityData) (contractAddress ts : String) :
    Json :=
  .obj [("id", .num identity.id), ("name", .str identity.name),
        ("email", .str identity.email),
        ("walletAddress", .str identity.walletAddress),
        ("isVerified", .bool identity.isVerified),
        ("roles", .arr (identity.roles.map .str)),
        ("contractAddress", .str contractAddress), ("timestamp", .str ts)]

/-- The `{valid, identity?}` result of `validateQRCodeData`. -/
structure QRValidationResult where
  valid : Bool
  identity : Option IdentityData
  deriving DecidableEq, Repr

/-- The registry lookup `blockchainService.getIdentityById` performs
(ids are contract ids; id 0 never exists — `_idCounter` starts at 1). -/
def lookupIdentity (reg : List (Nat × IdentityData)) (i : Nat) :
    Option IdentityData :=
  (reg.find? (fun p => p.1 == i)).map Prod.snd

/-- `DigitalIDService.validateQRCodeData(qrData)` (401–420): parse (a
`none` input is a `JSON.parse` failure, caught to `{valid:false}`), the
truthiness guard `!data.id || !data.walletAddress` (0 and "" are falsy),
the registry lookup, and the wallet comparison.  Total: every input yields
a result — the catch block never lets an exception out. -/
def validateQRCodeData (reg : List (Nat × IdentityData)) (q : Option Json) :
    QRValidationResult :=
  match q with
  | none => { valid := false, identity := none }
  | some j =>
    match getField j "id", getField j "walletAddress" with
    | some (.num i), some (.str w) =>
      if i = 0 ∨ w = "" then { valid := false, identity := none }
      else
        match lookupIdentity reg i with
        | none => { valid := false, identity := none }
        | some identity =>
          if identity.walletAddress ≠ w then
            { valid := false, identity := none }
          else { valid := true, identity := some identity }
    | _, _ => { valid := false, identity := none }

/-- A concrete registry identity for QR validation runs. -/
def qrDemoIdentity : IdentityData :=
  { id := 1, name := "Asha", email := "asha@x.com", nationality := "IN"
    aadhaarHash := "", passportHash := "", emergencyContact := "112"
    createdAt := 1, updatedAt := 1, isActive := true, isVerified := true
    walletAddress := "0xAAA1", roles := ["tourist"] }

/-! ## Lemmas and claim theorems -/

/-- The SHA-256 model agrees with the standard test vector for "abc". -/
theorem sha256hex_abc : sha256hex "abc" =
    "ba7816bf8f01cfea414140de5dae2223b00361a396177a9cb410ff61f20015ad" := by
  decide

theorem validateFrom_iff_chain (Hf : String → String) (prev : Block)
    (l : List Block) :
    validateFrom Hf prev l = true ↔ List.Chain (validStep Hf) prev l := by
  induction l generalizing prev with
  | nil => simp [validateFrom]
  | cons b rest ih =>
    simp [validateFrom, List.chain_cons, validStep, Bool.and_eq_true,
      beq_iff_eq, ih, and_assoc]

theorem validateChain_iff_chain' (Hf : String → String) (c : List Block) :
    validateChain Hf c = true ↔ List.Chain' (validStep Hf) c := by
  cases c with
  | nil => simp [validateChain, List.Chain']
  | cons g rest => simp [validateChain, validateFrom_iff_chain, List.Chain']

theorem chainBuilt_ne_nil {Hf : String → String} {c : List Block}
    (h : ChainBuilt Hf c) : c ≠ [] := by
  induction h <;> simp

theorem minedStep_of_minedFrom {Hf : String → String} {prev b : Block}
    {data : String} {ts : Nat} (h : minedFrom Hf prev data ts b) :
    minedStep Hf prev b := by
  obtain ⟨h1, h2, h3, h4, h5, h6, _⟩ := h
  refine ⟨?_, h4, h1, h6⟩
  simp only [blockHashOk, beq_iff_eq, h2, h3, h4]
  exact h5

theorem getLast?_eq_lastBlock (c : List Block) (hne : c ≠ []) :
    c.getLast? = some (lastBlock c) := by
  rw [lastBlock, List.getLastD_eq_getLast?]
  cases hl : c.getLast? with
  | none => exact absurd (List.getLast?_eq_none_iff.mp hl) hne
  | some b => rfl

theorem chainBuilt_chain' {Hf : String → String} {c : List Block}
    (h : ChainBuilt Hf c) : List.Chain' (minedStep Hf) c := by
  induction h with
  | genesis ts => simp
  | append c data ts b hc hm ih =>
    refine List.Chain'.append ih (List.chain'_singleton b) ?_
    intro x hx y hy
    rw [getLast?_eq_lastBlock c (chainBuilt_ne_nil hc)] at hx
    simp only [Option.mem_def, Option.some.injEq] at hx
    simp only [List.head?_cons, Option.mem_def, Option.some.injEq] at hy
    subst hx; subst hy
    exact minedStep_of_minedFrom hm

theorem chainBuilt_validate {Hf : String → String} {c : List Block}
    (h : ChainBuilt Hf c) : validateChain Hf c = true :=
  (validateChain_iff_chain' Hf c).mpr
    ((chainBuilt_chain' h).imp fun _ _ h' => ⟨h'.1, h'.2.1⟩)

theorem chain'_extract {R : Block → Block → Prop} {c : List Block}
    (h : List.Chain' R c) {i : Nat} (hi : i < c.length) (h1 : 1 ≤ i) :
    R (c.get ⟨i - 1, by omega⟩) (c.get ⟨i, hi⟩) := by
  rw [List.chain'_iff_get] at h
  have h2 := h (i - 1) (by omega)
  have hii : i - 1 + 1 = i := by omega
  simp only [hii] at h2
  exact h2

theorem demoChain_built : ChainBuilt sha256hex demoChain := by
  have hm : minedFrom sha256hex
      (lastBlock [createGenesisBlock sha256hex 1700000000000])
      "\"x\"" 1700000000008 minedBlock1 := by
    refine ⟨rfl, rfl, rfl, rfl, rfl, ?_, ?_⟩ <;> decide
  exact ChainBuilt.append [createGenesisBlock sha256hex 1700000000000]
    "\"x\"" 1700000000008 minedBlock1 (ChainBuilt.genesis 1700000000000) hm

/-- C1 (amended).  Chains built only by `addBlock` from the genesis block pass
`validateChain`.  Tampering is detected for every block at position `i ≥ 1`:
flipping its stored `hash` in place makes `validateChain` false, and flipping
its stored payload makes `validateChain` false provided the recomputed hash of
the altered payload differs from the stored hash (a SHA-256 collision is the
only escape).  Flipping the genesis block's stored `hash` is detected whenever
the chain has at least two blocks.  Payload mutations of the genesis block
itself are NOT detected — `validateChain` starts its loop at index 1 and never
recomputes the genesis hash. -/
theorem claim1_theorem (Hf : String → String) (c : List Block)
    (hb : ChainBuilt Hf c) :
    validateChain Hf c = true ∧
    (∀ (i : Nat) (hi : i < c.length), 1 ≤ i → ∀ hnew : String,
      hnew ≠ (c.get ⟨i, hi⟩).hash →
      validateChain Hf (c.set i { c.get ⟨i, hi⟩ with hash := hnew }) = false) ∧
    (∀ (i : Nat) (hi : i < c.length), 1 ≤ i → ∀ dnew : String,
      calculateHash Hf (c.get ⟨i, hi⟩).index (c.get ⟨i, hi⟩).timestamp dnew
          (c.get ⟨i, hi⟩).previousHash (c.get ⟨i, hi⟩).nonce ≠
        (c.get ⟨i, hi⟩).hash →
      validateChain Hf (c.set i { c.get ⟨i, hi⟩ with data := dnew }) = false) ∧
    (∀ (hlen : 2 ≤ c.length) (hnew : String),
      hnew ≠ (c.get ⟨0, by omega⟩).hash →
      validateChain Hf (c.set 0 { c.get ⟨0, by omega⟩ with hash := hnew }) = false) := by
  have hmined := chainBuilt_chain' hb
  refine ⟨chainBuilt_validate hb, ?_, ?_, ?_⟩
  · intro i hi h1i hnew hne
    by_contra hfalse
    rw [Bool.not_eq_false] at hfalse
    have hstep := chain'_extract ((validateChain_iff_chain' Hf _).mp hfalse)
      (i := i) (by rw [List.length_set]; exact hi) h1i
    have hok := hstep.1
    simp only [List.get_eq_getElem, List.getElem_set_self] at hok
    rw [blockHashOk, beq_iff_eq] at hok
    have horig := (chain'_extract hmined hi h1i).1
    rw [blockHashOk, beq_iff_eq] at horig
    exact hne (hok.trans horig.symm)
  · intro i hi h1i dnew hcoll
    by_contra hfalse
    rw [Bool.not_eq_false] at hfalse
    have hstep := chain'_extract ((validateChain_iff_chain' Hf _).mp hfalse)
      (i := i) (by rw [List.length_set]; exact hi) h1i
    have hok := hstep.1
    simp only [List.get_eq_getElem, List.getElem_set_self] at hok
    rw [blockHashOk, beq_iff_eq] at hok
    exact hcoll hok.symm
  · intro hlen hnew hne
    by_contra hfalse
    rw [Bool.not_eq_false] at hfalse
    have hstep := chain'_extract ((validateChain_iff_chain' Hf _).mp hfalse)
      (i := 1) (by rw [List.length_set]; omega) (by omega)
    have hlink := hstep.2
    simp only [List.get_eq_getElem, List.getElem_set_self,
      List.getElem_set_ne (by omega : (0 : Nat) ≠ 1)] at hlink
    have horig := (chain'_extract hmined (i := 1) (by omega) (by omega)).2.1
    simp only [List.get_eq_getElem] at horig hlink
    have h01 : (1 : Nat) - 1 = 0 := rfl
    simp only [h01] at horig
    apply hne
    simp only [List.get_eq_getElem]
    rw [← horig, hlink]

/-- C1, counterexample to the claim as stated: `demoChain` is built only via
`addBlock` from genesis, yet flipping the genesis block's stored payload in
place (to "tampered", without recomputing anything) leaves `validateChain`
true — the loop of `validateChain` starts at index 1 and never recomputes the
genesis hash. -/
theorem claim1_counterexample :
    ChainBuilt sha256hex demoChain ∧
    "tampered" ≠ (demoChain.get ⟨0, by decide⟩).data ∧
    validateChain sha256hex
      (demoChain.set 0
        { demoChain.get ⟨0, by decide⟩ with data := "tampered" }) = true :=
  ⟨demoChain_built, by decide, by decide⟩

/-- C1, witness: the amended theorem applied to the concrete two-block chain
`demoChain` with concrete tampered values. -/
theorem claim1_witness :
    ChainBuilt sha256hex demoChain ∧
    validateChain sha256hex demoChain = true ∧
    validateChain sha256hex
      (demoChain.set 1
        { demoChain.get ⟨1, by decide⟩ with hash := "deadbeef" }) = false ∧
    validateChain sha256hex
      (demoChain.set 1
        { demoChain.get ⟨1, by decide⟩ with data := "\"y\"" }) = false ∧
    validateChain sha256hex
      (demoChain.set 0
        { demoChain.get ⟨0, by decide⟩ with hash := "00" }) = false := by
  obtain ⟨h1, h2, h3, h4⟩ := claim1_theorem sha256hex demoChain demoChain_built
  exact ⟨demoChain_built, h1,
    h2 1 (by decide) (by decide) "deadbeef" (by decide),
    h3 1 (by decide) (by decide) "\"y\"" (by decide),
    h4 (by decide) "00" (by decide)⟩

/-- C2 (amended).  In every chain built via `addBlock` from genesis: every
block's `hash` recomputes from its own fields; the chain starts with the
genesis block, which has `index = 0` and `previousHash = "0"`; and every
appended block has index one more than its predecessor, `previousHash` equal
to the predecessor's hash, and a hash meeting the difficulty-2 admission
target.  The genesis block's own hash is not subject to the admission policy
(`createGenesisBlock` computes it directly, without mining). -/
theorem claim2_theorem (Hf : String → String) (c : List Block)
    (hb : ChainBuilt Hf c) :
    (∀ b ∈ c, blockHashOk Hf b = true) ∧
    (∃ ts : Nat, c.head? = some (createGenesisBlock Hf ts)) ∧
    (∀ g ∈ c.head?, g.index = 0 ∧ g.previousHash = "0") ∧
    List.Chain' (minedStep Hf) c := by
  have hhead : ∃ ts : Nat, c.head? = some (createGenesisBlock Hf ts) := by
    induction hb with
    | genesis ts => exact ⟨ts, rfl⟩
    | append c data ts b hc hm ih =>
      obtain ⟨t0, ht0⟩ := ih
      cases c with
      | nil => exact absurd rfl (chainBuilt_ne_nil hc)
      | cons a l => exact ⟨t0, by simpa using ht0⟩
  have hall : ∀ b ∈ c, blockHashOk Hf b = true := by
    clear hhead
    induction hb with
    | genesis ts =>
      intro b hbmem
      simp only [List.mem_singleton] at hbmem
      subst hbmem
      simp [blockHashOk, createGenesisBlock]
    | append c data ts b hc hm ih =>
      intro x hx
      rcases List.mem_append.mp hx with h | h
      · exact ih x h
      · simp only [List.mem_singleton] at h
        subst h
        exact (minedStep_of_minedFrom hm).1
  refine ⟨hall, hhead, ?_, chainBuilt_chain' hb⟩
  intro g hg
  obtain ⟨ts, hts⟩ := hhead
  rw [hts] at hg
  simp only [Option.mem_def, Option.some.injEq] at hg
  subst hg
  exact ⟨rfl, rfl⟩

/-- C2, counterexample to the claim as stated: the genesis block of a chain
built via `addBlock` has a hash that does not satisfy the difficulty-2
admission policy (its first two hex nibbles are not "00"): `mineBlock` is
never applied to it. -/
theorem claim2_counterexample :
    ChainBuilt sha256hex [createGenesisBlock sha256hex 1700000000000] ∧
    hashMeetsTarget difficulty
      (createGenesisBlock sha256hex 1700000000000).hash = false :=
  ⟨ChainBuilt.genesis 1700000000000, by decide⟩

theorem keyedLookup_cons (l : List (Nat × SolIdentity)) (i : Nat)
    (x : SolIdentity) :
    ((((i, x) :: l).find? (fun p => p.1 == i)).map Prod.snd).getD
      defaultIdentity = x := by
  rw [List.find?_cons_of_pos _ (by simp)]
  rfl

theorem getIdentity_write_events (s : SolState) (i : Nat) (x : SolIdentity)
    (E : List SolEvent) :
    getIdentity { setIdentity s i x with events := E } i = x :=
  keyedLookup_cons s.identities i x

theorem getIdentity_write_events_emails (s : SolState) (i : Nat)
    (x : SolIdentity) (M : List (String × Nat)) (E : List SolEvent) :
    getIdentity { setIdentity s i x with emailToIdentity := M, events := E } i
      = x :=
  keyedLookup_cons s.identities i x

/-- C2, witness: the amended theorem applied to the concrete two-block chain
`demoChain`. -/
theorem claim2_witness :
    ChainBuilt sha256hex demoChain ∧
    ((∀ b ∈ demoChain, blockHashOk sha256hex b = true) ∧
     (∃ ts : Nat, demoChain.head? = some (createGenesisBlock sha256hex ts)) ∧
     (∀ g ∈ demoChain.head?, g.index = 0 ∧ g.previousHash = "0") ∧
     List.Chain' (minedStep sha256hex) demoChain) :=
  ⟨demoChain_built, claim2_theorem sha256hex demoChain demoChain_built⟩

/-- C4 (amended).  `deactivateIdentity` only sets `isActive := false`.  None
of `updateIdentity`, `verifyIdentity`, `addRole`, `removeRole` checks
`isActive`, so on a deactivated identity each still succeeds (subject to its
usual ownership/existence/index guards) and mutates the record — there is no
`InvalidState` failure and Deactivated is not a terminal state. -/
theorem claim4_theorem (s : SolState) (sender : String) (t1 t2 : Nat)
    (i : Nat) (nm natl ec role : String)
    (hown : (getIdentity s i).walletAddress = sender)
    (hne0 : sender ≠ addressZero)
    (hroles : 2 ≤ (getIdentity s i).roles.length) :
    ((deactivateIdentity s sender t1 i).map
        (fun s1 => (getIdentity s1 i).isActive) = .ok false) ∧
    (((deactivateIdentity s sender t1 i).bind
        (fun s1 => updateIdentity s1 sender t2 i nm (getIdentity s1 i).email
          natl ec)).map (fun s2 => (getIdentity s2 i).name) = .ok nm) ∧
    (((deactivateIdentity s sender t1 i).bind
        (fun s1 => verifyIdentity s1 s1.owner t2 i)).map
          (fun s2 => (getIdentity s2 i).isVerified) = .ok true) ∧
    (((deactivateIdentity s sender t1 i).bind
        (fun s1 => addRole s1 sender t2 i role)).map
          (fun s2 => (getIdentity s2 i).roles) =
       .ok ((getIdentity s i).roles ++ [role])) ∧
    (((deactivateIdentity s sender t1 i).bind
        (fun s1 => removeRole s1 sender t2 i 0)).map (fun _ => true) =
       .ok true) := by
  have h0 : ¬ ((getIdentity s i).walletAddress ≠ sender) := by rw [hown]; simp
  have h1 : ¬ ((getIdentity s i).walletAddress = addressZero) := by
    rw [hown]; exact hne0
  have hdeact : deactivateIdentity s sender t1 i =
      .ok { setIdentity s i { getIdentity s i with isActive := false } with
            events := s.events ++ [.identityDeactivated i sender t1] } := by
    rw [deactivateIdentity, if_neg h0, if_neg h1]
  have hg1 := getIdentity_write_events s i
    { getIdentity s i with isActive := false }
    (s.events ++ [.identityDeactivated i sender t1])
  refine ⟨?_, ?_, ?_, ?_, ?_⟩
  · rw [hdeact]
    simp [Except.map, hg1]
  · rw [hdeact]
    simp [Except.bind, Except.map, updateIdentity, hg1, hown, hne0,
      getIdentity_write_events_emails, getIdentity_write_events]
  · rw [hdeact]
    simp [Except.bind, Except.map, verifyIdentity, hg1, hown, hne0,
      getIdentity_write_events]
  · rw [hdeact]
    simp [Except.bind, Except.map, addRole, hg1, hown, hne0,
      getIdentity_write_events]
  · rw [hdeact]
    have hget : (((getIdentity s i).roles.set 0
        ((getIdentity s i).roles.getLastD "")).dropLast).get? 0 =
        some ((((getIdentity s i).roles.set 0
          ((getIdentity s i).roles.getLastD "")).dropLast).get
            ⟨0, by rw [List.length_dropLast, List.length_set]; omega⟩) :=
      List.get?_eq_get _
    simp only [Except.bind, Except.map, removeRole, hg1, hown, hne0,
      getIdentity_write_events, hget,
      show 0 < (getIdentity s i).roles.length by omega]
    simp [hown, hne0, hget]

/-- C4, counterexample to the claim as stated: after `deactivateIdentity`
succeeds on identity 1 (leaving `isActive = false`), a subsequent
`updateIdentity` by the owner SUCCEEDS and changes the record's name — it
does not fail with any `InvalidState` error. -/
theorem claim4_counterexample :
    ((deactivateIdentity solDemoState "0xAAA1" 2 1).map
        (fun s1 => (getIdentity s1 1).isActive) = .ok false) ∧
    (((deactivateIdentity solDemoState "0xAAA1" 2 1).bind
        (fun s1 =>
          updateIdentity s1 "0xAAA1" 3 1 "Asha Devi" "asha@x.com" "IN" "112")).map
          (fun s2 => (getIdentity s2 1).name) = .ok "Asha Devi") := by
  constructor <;> rfl

/-- C4, witness: the amended theorem applied to the concrete state
`solTwoRoleState`. -/
theorem claim4_witness :
    ((getIdentity solTwoRoleState 1).walletAddress = "0xAAA1") ∧
    ("0xAAA1" ≠ addressZero) ∧
    (2 ≤ (getIdentity solTwoRoleState 1).roles.length) ∧
    (((deactivateIdentity solTwoRoleState "0xAAA1" 2 1).bind
        (fun s1 => addRole s1 "0xAAA1" 3 1 "admin")).map
          (fun s2 => (getIdentity s2 1).roles) =
      .ok ((getIdentity solTwoRoleState 1).roles ++ ["admin"])) ∧
    (((deactivateIdentity solTwoRoleState "0xAAA1" 2 1).bind
        (fun s1 => removeRole s1 "0xAAA1" 3 1 0)).map (fun _ => true) =
      .ok true) := by
  have h := claim4_theorem solTwoRoleState "0xAAA1" 2 3 1 "AshaX" "IN" "112"
    "admin" (by decide) (by decide) (by decide)
  exact ⟨by decide, by decide, by decide, h.2.2.2.1, h.2.2.2.2⟩

/-- C5 (amended).  `addRole` pushes unconditionally: adding a role that is
already present appends a second copy (it is neither a no-op nor an error),
so the roles array can contain duplicates.  `removeRole` takes a positional
index, not a role name, and reverts with "Invalid role index" whenever the
index is out of range — there is no by-name, no-op removal. -/
theorem claim5_theorem (s : SolState) (sender : String) (now : Nat) (i : Nat)
    (role : String)
    (hown : (getIdentity s i).walletAddress = sender)
    (hne0 : sender ≠ addressZero)
    (hmem : role ∈ (getIdentity s i).roles) :
    ((addRole s sender now i role).map (fun s2 => (getIdentity s2 i).roles) =
      .ok ((getIdentity s i).roles ++ [role])) ∧
    (0 < (getIdentity s i).roles.count role) ∧
    (¬ ((getIdentity s i).roles ++ [role]).Nodup) ∧
    (∀ j, (getIdentity s i).roles.length ≤ j →
      removeRole s sender now i j = .error "Invalid role index") := by
  have h0 : ¬ ((getIdentity s i).walletAddress ≠ sender) := by rw [hown]; simp
  have h1 : ¬ ((getIdentity s i).walletAddress = addressZero) := by
    rw [hown]; exact hne0
  refine ⟨?_, ?_, ?_, ?_⟩
  · simp [addRole, if_neg h0, if_neg h1, Except.map, getIdentity_write_events]
  · exact List.count_pos_iff.mpr hmem
  · intro hnd
    rcases List.nodup_append.mp hnd with ⟨-, -, hdisj⟩
    exact hdisj hmem (List.mem_singleton_self role)
  · intro j hj
    rw [removeRole, if_neg h0, if_neg h1, if_neg (by omega)]

/-- C5, counterexample to the claim as stated: adding the already-present
role "tourist" is not a no-op — the roles array becomes
["tourist", "tourist"], a duplicate; and `removeRole` does not accept a role
name at all: its index argument reverts with "Invalid role index" when out of
range instead of being a no-op. -/
theorem claim5_counterexample :
    ((addRole solDemoState "0xAAA1" 5 1 "tourist").map
        (fun s2 => (getIdentity s2 1).roles) = .ok ["tourist", "tourist"]) ∧
    (removeRole solDemoState "0xAAA1" 5 1 1 = .error "Invalid role index") := by
  constructor <;> rfl

/-- C5, witness: the amended theorem applied to `solDemoState`. -/
theorem claim5_witness :
    ((getIdentity solDemoState 1).walletAddress = "0xAAA1") ∧
    ("0xAAA1" ≠ addressZero) ∧
    ("tourist" ∈ (getIdentity solDemoState 1).roles) ∧
    ((addRole solDemoState "0xAAA1" 5 1 "tourist").map
        (fun s2 => (getIdentity s2 1).roles) =
      .ok ((getIdentity solDemoState 1).roles ++ ["tourist"])) ∧
    (¬ ((getIdentity solDemoState 1).roles ++ ["tourist"]).Nodup) ∧
    (removeRole solDemoState "0xAAA1" 5 1 9 = .error "Invalid role index") := by
  have h := claim5_theorem solDemoState "0xAAA1" 5 1 "tourist"
    (by decide) (by decide) (by decide)
  exact ⟨by decide, by decide, by decide, h.1, h.2.2.1, h.2.2.2 9 (by decide)⟩

/-- C10 (amended).  For a valid index `k` with at least one position after it
(`k + 1 < roles.length`), `removeRole` removes by swap-and-pop and the
`RoleRemoved` event reports the element found at position `k` AFTER the
swap-and-pop — the swapped-in former last element, not the removed role.
When `k` is the LAST valid index (`k + 1 = roles.length`), the event's read
of `roles[k]` on the popped array is out of bounds and the whole call
reverts, so no removal happens at all. -/
theorem claim10_theorem (s : SolState) (sender : String) (now : Nat)
    (i k : Nat)
    (hown : (getIdentity s i).walletAddress = sender)
    (hne0 : sender ≠ addressZero)
    (hk : k < (getIdentity s i).roles.length) :
    (k + 1 < (getIdentity s i).roles.length →
      (removeRole s sender now i k).map
          (fun s2 => ((getIdentity s2 i).roles, s2.events)) =
        .ok ((((getIdentity s i).roles.set k
                ((getIdentity s i).roles.getLastD "")).dropLast),
             s.events ++
               [.roleRemoved i ((getIdentity s i).roles.getLastD "") now])) ∧
    (k + 1 = (getIdentity s i).roles.length →
      removeRole s sender now i k =
        .error "panic: array out-of-bounds access") := by
  have h0 : ¬ ((getIdentity s i).walletAddress ≠ sender) := by rw [hown]; simp
  have h1 : ¬ ((getIdentity s i).walletAddress = addressZero) := by
    rw [hown]; exact hne0
  constructor
  · intro hlt
    have hget : (((getIdentity s i).roles.set k
        ((getIdentity s i).roles.getLastD "")).dropLast).get? k =
        some ((getIdentity s i).roles.getLastD "") := by
      rw [List.dropLast_eq_take, List.get?_take (by rw [List.length_set]; omega),
        List.get?_set_eq]
      simp [hk]
    simp only [List.get?_eq_getElem?, List.getLastD_eq_getLast?] at hget
    simp [removeRole, if_neg h0, if_neg h1, if_pos hk, hget, Except.map,
      getIdentity_write_events]
  · intro heq
    have hnone : (((getIdentity s i).roles.set k
        ((getIdentity s i).roles.getLastD "")).dropLast).get? k = none :=
      List.get?_eq_none.mpr
        (by rw [List.length_dropLast, List.length_set]; omega)
    rw [removeRole, if_neg h0, if_neg h1, if_pos hk, hnone]

/-- C10, counterexample to the claim as stated: index 0 is a valid role index
of identity 1 (roles = ["tourist"]), yet `removeRole` does not remove and
emit — the event's read of `roles[0]` after the pop is out of bounds and the
whole call reverts. -/
theorem claim10_counterexample :
    removeRole solDemoState "0xAAA1" 7 1 0 =
      .error "panic: array out-of-bounds access" := by
  rfl

/-- C10, witness: the amended theorem applied to `solTwoRoleState`
(roles = ["tourist", "guide_lead"]).  Removing index 0 succeeds but the
event reports "guide_lead" (the swapped-in last element) although the
removed role was "tourist"; removing index 1 (the last index) reverts. -/
theorem claim10_witness :
    ((getIdentity solTwoRoleState 1).walletAddress = "0xAAA1") ∧
    ("0xAAA1" ≠ addressZero) ∧
    (0 + 1 < (getIdentity solTwoRoleState 1).roles.length) ∧
    ((removeRole solTwoRoleState "0xAAA1" 7 1 0).map
        (fun s2 => ((getIdentity s2 1).roles, s2.events)) =
      .ok (["guide_lead"], [SolEvent.roleRemoved 1 "guide_lead" 7])) ∧
    (removeRole solTwoRoleState "0xAAA1" 7 1 1 =
      .error "panic: array out-of-bounds access") := by
  have h := claim10_theorem solTwoRoleState "0xAAA1" 7 1 0
    (by decide) (by decide) (by decide)
  have h2 := claim10_theorem solTwoRoleState "0xAAA1" 7 1 1
    (by decide) (by decide) (by decide)
  refine ⟨by decide, by decide, by decide, ?_, h2.2 (by decide)⟩
  exact (h.1 (by decide)).trans (congrArg Except.ok (by decide))

/-- C3 (amended).  `SimpleBlockchain.createDigitalID` performs no uniqueness
check of its own, and no `DuplicateIdentity` error exists: in either backend
branch its only failure mode is the generic "Failed to create digital ID"
rethrown from the storage layer.  Under the in-memory fallback every create
succeeds and appends its record, whatever emails, wallets or hashes are
already present.  Under the durable (Mongo) branch the schema's unique index
on `hash` does reject a create whose content hash is already stored — but
as the generic error, never one naming a field.  The Solidity
`createIdentity` rejects a duplicate wallet or email (require strings
"Identity already exists" / "Email already registered"), but never a
duplicate aadhaar or passport hash (the contentHash analogue). -/
theorem claim3_theorem :
    (∀ (s : SBState) (inp : CreateInput) (tsH tsR : Nat) (newId : String),
      (createDigitalID false s inp tsH tsR newId).map
          (fun r => (r.1.digitalIDs, r.2.1.email, r.2.1.walletAddress)) =
        .ok (s.digitalIDs ++ [newDoc inp tsH tsR newId], inp.email,
             inp.walletAddress)) ∧
    (∀ (c : Bool) (s : SBState) (inp : CreateInput) (tsH tsR : Nat)
        (newId : String),
      (∃ r, createDigitalID c s inp tsH tsR newId = .ok r) ∨
      createDigitalID c s inp tsH tsR newId =
        .error "Failed to create digital ID") ∧
    (∀ (s : SBState) (inp : CreateInput) (tsH tsR : Nat) (newId : String)
        (d : SBDigitalID), d ∈ s.dbDocs → d.hash = sbContentHash inp tsH →
      createDigitalID true s inp tsH tsR newId =
        .error "Failed to create digital ID") ∧
    (∀ (s : SolState) (sender : String) (now : Nat)
        (nm em natl aH pH ec : String) (roles : List String),
      lookupNat s.walletToIdentity sender = 0 →
      lookupNat s.emailToIdentity em ≠ 0 →
      createIdentity s sender now nm em natl aH pH ec roles =
        .error "Email already registered") ∧
    (∀ (s : SolState) (sender : String) (now : Nat)
        (nm em natl aH pH ec : String) (roles : List String),
      lookupNat s.walletToIdentity sender = 0 →
      lookupNat s.emailToIdentity em = 0 →
      nm ≠ "" → em ≠ "" →
      (createIdentity s sender now nm em natl aH pH ec roles).map
        (fun _ => true) = .ok true) := by
  refine ⟨?_, ?_, ?_, ?_, ?_⟩
  · intro s inp tsH tsR newId
    rfl
  · intro c s inp tsH tsR newId
    cases hmc : (if c then mongoCreate s.dbDocs (newDoc inp tsH tsR newId)
        else Except.ok (newDoc inp tsH tsR newId)) with
    | error e =>
      right
      simp [createDigitalID, hmc]
    | ok doc =>
      left
      refine ⟨({ s with
          digitalIDs := s.digitalIDs ++ [doc]
          dbDocs := if c then s.dbDocs ++ [doc] else s.dbDocs },
        doc,
        "\x7b\"type\":\"digital_id\",\"digitalID\":" ++ jsonStr doc.id ++
          ",\"hash\":" ++ jsonStr doc.hash ++ ",\"verified\":false\x7d"), ?_⟩
      simp [createDigitalID, hmc]
  · intro s inp tsH tsR newId d hd hdh
    have hall : s.dbDocs.all
        (fun d2 => d2.hash != (newDoc inp tsH tsR newId).hash) = false := by
      rw [List.all_eq_false]
      exact ⟨d, hd, by simp [newDoc, hdh]⟩
    have hchecks : mongoChecks s.dbDocs (newDoc inp tsH tsR newId) = false := by
      simp only [mongoChecks]
      rw [hall]
      simp
    simp [createDigitalID, mongoCreate, hchecks]
  · intro s sender now nm em natl aH pH ec roles hw he
    rw [createIdentity, if_neg (by simp [hw]), if_pos he]
  · intro s sender now nm em natl aH pH ec roles hw he hnm hem
    rw [createIdentity, if_neg (by simp [hw]), if_neg (by simp [he]),
      if_neg hnm, if_neg hem]
    rfl

/-- C3, counterexample to the claim as stated: with Asha's record (email
"asha@x.com") already in the registry, a second `createDigitalID` with the
SAME email and a DIFFERENT wallet succeeds and appends a second record — it
does not fail with `DuplicateIdentity{field:"email"}` and it does insert. -/
theorem claim3_counterexample :
    (sbAshaState.digitalIDs = [ashaDoc] ∧ ashaDoc.email = "asha@x.com" ∧
      belaInput.email = "asha@x.com" ∧
      belaInput.walletAddress ≠ ashaDoc.walletAddress) ∧
    (createDigitalID false sbAshaState belaInput 1700000000002 1700000000002
        "id-2").map
        (fun r => (r.2.1.email, r.1.digitalIDs.length)) =
      .ok ("asha@x.com", 2) := by
  exact ⟨⟨rfl, rfl, rfl, by decide⟩, rfl⟩

/-- C3, witness: the amended theorem applied to the duplicate-email create
on `sbAshaState`, to the duplicate-content-hash create on `sbDupHashState`
(the Mongo branch rejects it with the generic error), and to the Solidity
contract on `solDemoState` / `solAadhaarState`. -/
theorem claim3_witness :
    ((createDigitalID false sbAshaState belaInput 2 2 "id-2").map
        (fun r => (r.1.digitalIDs, r.2.1.email, r.2.1.walletAddress)) =
      .ok (sbAshaState.digitalIDs ++ [newDoc belaInput 2 2 "id-2"],
           belaInput.email, belaInput.walletAddress)) ∧
    (ashaDoc ∈ sbDupHashState.dbDocs ∧
      ashaDoc.hash = sbContentHash ashaInput 1700000000001) ∧
    (createDigitalID true sbDupHashState ashaInput 1700000000001
        1700000000002 "id-2" = .error "Failed to create digital ID") ∧
    (lookupNat solDemoState.walletToIdentity "0xBBB2" = 0) ∧
    (lookupNat solDemoState.emailToIdentity "asha@x.com" ≠ 0) ∧
    (createIdentity solDemoState "0xBBB2" 9 "Bela" "asha@x.com" "IN" "" ""
        "112" ["tourist"] = .error "Email already registered") ∧
    (lookupNat solAadhaarState.aadhaarToIdentity "HASH1" ≠ 0) ∧
    ((createIdentity solAadhaarState "0xBBB2" 9 "Bela" "bela@x.com" "IN"
        "HASH1" "" "112" ["tourist"]).map (fun _ => true) = .ok true) := by
  obtain ⟨h1, h2, h3, h4, h5⟩ := claim3_theorem
  refine ⟨h1 sbAshaState belaInput 2 2 "id-2",
    ⟨List.mem_singleton_self ashaDoc, rfl⟩,
    h3 sbDupHashState ashaInput 1700000000001 1700000000002 "id-2" ashaDoc
      (List.mem_singleton_self ashaDoc) rfl,
    by decide, by decide,
    h4 solDemoState "0xBBB2" 9 "Bela" "asha@x.com" "IN" "" "" "112"
      ["tourist"] (by decide) (by decide),
    by decide,
    h5 solAadhaarState "0xBBB2" 9 "Bela" "bela@x.com" "IN" "HASH1" "" "112"
      ["tourist"] (by decide) (by decide) (by decide) (by decide)⟩

theorem find?_setVerifiedFirst (l : List SBDigitalID) (h : String)
    (d : SBDigitalID) (hf : l.find? (fun x => x.hash == h) = some d) :
    (setVerifiedFirst l h).find? (fun x => x.hash == h) =
      some { d with verified := true } := by
  induction l with
  | nil => simp [List.find?] at hf
  | cons a rest ih =>
    cases hah : (a.hash == h) with
    | true =>
      simp only [List.find?, hah] at hf
      simp only [Option.some.injEq] at hf
      subst hf
      simp [setVerifiedFirst, hah, List.find?]
    | false =>
      simp only [List.find?, hah] at hf
      simp [setVerifiedFirst, hah, List.find?, ih hf]

theorem setVerifiedFirst_idem (l : List SBDigitalID) (h : String) :
    setVerifiedFirst (setVerifiedFirst l h) h = setVerifiedFirst l h := by
  induction l with
  | nil => rfl
  | cons a rest ih =>
    cases hah : (a.hash == h) with
    | true => simp [setVerifiedFirst, hah]
    | false => simp [setVerifiedFirst, hah, ih]

theorem updateVerificationQueue_latest (q : List (Nat × Verification))
    (i : Nat) (v1 : String) (t1 : Nat) (v2 : String) (t2 : Nat) :
    updateVerificationQueue (updateVerificationQueue q i v1 t1) i v2 t2 =
      updateVerificationQueue q i v2 t2 := by
  simp only [updateVerificationQueue, List.map_map]
  congr 1
  funext p
  by_cases hp : p.1 = i
  · simp [hp]
  · simp [hp]

/-- C6 (amended).  Verification is idempotent but mints nothing in the
in-process ledger: `SimpleBlockchain.verifyDigitalID` succeeds again on an
already-verified record, returning the same verified record, and the second
call does not change the state at all — in particular the chain is
untouched by BOTH calls (the method never calls `addBlock`, so no ledger
block records either verification).  The service's verification queue keeps
exactly one entry per identity, with the verifier/timestamp of the LATEST
call.  In the Solidity contract, each `verifyIdentity` call succeeds and
emits its own `IdentityVerified` event while `isVerified` stays true. -/
theorem claim6_theorem
    (s : SBState) (h : String) (d : SBDigitalID)
    (hfind : s.digitalIDs.find? (fun x => x.hash == h) = some d)
    (q : List (Nat × Verification)) (i : Nat) (v1 v2 : String) (t1 t2 : Nat)
    (cs : SolState) (sender : String) (j : Nat) (u1 u2 : Nat)
    (howner : sender = cs.owner)
    (hex : (getIdentity cs j).walletAddress ≠ addressZero) :
    ((verifyDigitalID s h).2 = some { d with verified := true }) ∧
    ((verifyDigitalID (verifyDigitalID s h).1 h).2 =
      some { d with verified := true }) ∧
    ((verifyDigitalID (verifyDigitalID s h).1 h).1 = (verifyDigitalID s h).1) ∧
    ((verifyDigitalID (verifyDigitalID s h).1 h).1.chain = s.chain) ∧
    (updateVerificationQueue (updateVerificationQueue q i v1 t1) i v2 t2 =
      updateVerificationQueue q i v2 t2) ∧
    ((updateVerificationQueue q i v2 t2).length = q.length) ∧
    (((verifyIdentity cs sender u1 j).bind
        (fun cs1 => verifyIdentity cs1 sender u2 j)).map
        (fun cs2 => ((getIdentity cs2 j).isVerified, cs2.events)) =
      .ok (true, cs.events ++ [.identityVerified j sender u1,
                               .identityVerified j sender u2])) := by
  have hv1 : verifyDigitalID s h =
      ({ s with digitalIDs := setVerifiedFirst s.digitalIDs h },
       some { d with verified := true }) := by
    rw [verifyDigitalID, hfind]
  have hfind2 := find?_setVerifiedFirst s.digitalIDs h d hfind
  have hv2 : verifyDigitalID
      { s with digitalIDs := setVerifiedFirst s.digitalIDs h } h =
      ({ s with digitalIDs :=
          setVerifiedFirst (setVerifiedFirst s.digitalIDs h) h },
       some { { d with verified := true } with verified := true }) := by
    rw [verifyDigitalID]
    rw [show ({ s with digitalIDs := setVerifiedFirst s.digitalIDs h } :
        SBState).digitalIDs = setVerifiedFirst s.digitalIDs h from rfl]
    rw [hfind2]
  have hcv1 : verifyIdentity cs sender u1 j =
      .ok { setIdentity cs j { getIdentity cs j with isVerified := true } with
            events := cs.events ++ [.identityVerified j sender u1] } := by
    rw [verifyIdentity, if_neg (by simp [howner]), if_neg hex]
  have hg1 := getIdentity_write_events cs j
    { getIdentity cs j with isVerified := true }
    (cs.events ++ [.identityVerified j sender u1])
  refine ⟨by rw [hv1], ?_, ?_, ?_,
    updateVerificationQueue_latest q i v1 t1 v2 t2, ?_, ?_⟩
  · rw [hv1, hv2]
  · rw [hv1, hv2]
    simp [setVerifiedFirst_idem]
  · rw [hv1, hv2]
  · simp [updateVerificationQueue]
  · rw [hcv1]
    simp only [Except.bind]
    rw [verifyIdentity, if_neg (by simp [setIdentity, howner]), hg1,
      if_neg (by simpa using hex)]
    simp only [Except.map, getIdentity_write_events]
    simp [List.append_assoc]

/-- C6, counterexample to the claim as stated: two `verifyDigitalID` calls on
the same record both succeed, but the chain is identical before and after —
NO ledger block is minted by either verification call (the claim requires
each call to mint its own block). -/
theorem claim6_counterexample :
    ((verifyDigitalID sbVerState "h1").2 =
      some { verDoc with verified := true }) ∧
    ((verifyDigitalID (verifyDigitalID sbVerState "h1").1 "h1").2 =
      some { verDoc with verified := true }) ∧
    ((verifyDigitalID (verifyDigitalID sbVerState "h1").1 "h1").1.chain =
      sbVerState.chain) := by
  exact ⟨rfl, rfl, rfl⟩

/-- C6, witness: the amended theorem applied to `sbVerState`, a one-entry
verification queue, and `solDemoState`. -/
theorem claim6_witness :
    (sbVerState.digitalIDs.find? (fun x => x.hash == "h1") = some verDoc) ∧
    ((verifyDigitalID sbVerState "h1").2 =
      some { verDoc with verified := true }) ∧
    ((verifyDigitalID (verifyDigitalID sbVerState "h1").1 "h1").1.chain =
      sbVerState.chain) ∧
    (updateVerificationQueue (updateVerificationQueue
        [(1, { identityId := 1, verifierAddress := "", verificationDate := 0,
               status := "pending" })] 1 "0xV1" 11) 1 "0xV2" 12 =
      updateVerificationQueue
        [(1, { identityId := 1, verifierAddress := "", verificationDate := 0,
               status := "pending" })] 1 "0xV2" 12) ∧
    (((verifyIdentity solDemoState "0xADMIN" 21 1).bind
        (fun cs1 => verifyIdentity cs1 "0xADMIN" 22 1)).map
        (fun cs2 => ((getIdentity cs2 1).isVerified, cs2.events)) =
      .ok (true, solDemoState.events ++ [.identityVerified 1 "0xADMIN" 21,
                                         .identityVerified 1 "0xADMIN" 22])) := by
  have h := claim6_theorem sbVerState "h1" verDoc (by decide)
    [(1, { identityId := 1, verifierAddress := "", verificationDate := 0,
           status := "pending" })] 1 "0xV1" "0xV2" 11 12
    solDemoState "0xADMIN" 1 21 22 (by decide) (by decide)
  exact ⟨by decide, h.1, h.2.2.2.1, h.2.2.2.2.1, h.2.2.2.2.2.2⟩

/-- C9 (amended).  The two backends of `createDigitalID` are selected by a
PER-CALL probe of `mongoose.connection.readyState` (the `connected`
parameter), not once at construction, and they are NOT behaviorally
interchangeable: the in-memory branch stores and returns the input fields
verbatim with no validation, while the Mongo branch applies the schema —
it rejects any role outside the enum (surfaced as "Failed to create digital
ID") and returns the trimmed name and lowercased trimmed email. -/
theorem claim9_theorem :
    (∀ (s : SBState) (inp : CreateInput) (tsH tsR : Nat) (newId : String),
      (createDigitalID false s inp tsH tsR newId).map
          (fun r => (r.2.1.name, r.2.1.email, r.2.1.role)) =
        .ok (inp.name, inp.email, inp.role)) ∧
    (∀ (s : SBState) (inp : CreateInput) (tsH tsR : Nat) (newId : String),
      roleValues.contains inp.role = false →
      createDigitalID true s inp tsH tsR newId =
        .error "Failed to create digital ID") ∧
    (∀ (s : SBState) (inp : CreateInput) (tsH tsR : Nat) (newId : String),
      mongoChecks s.dbDocs (newDoc inp tsH tsR newId) = true →
      (createDigitalID true s inp tsH tsR newId).map
          (fun r => (r.2.1.name, r.2.1.email)) =
        .ok (jsTrim inp.name, jsToLower (jsTrim inp.email))) := by
  refine ⟨?_, ?_, ?_⟩
  · intro s inp tsH tsR newId
    rfl
  · intro s inp tsH tsR newId hrole
    have hmem : inp.role ∉ roleValues := by simpa using hrole
    have hchecks : mongoChecks s.dbDocs (newDoc inp tsH tsR newId) = false := by
      simp [mongoChecks, newDoc, hmem]
    simp [createDigitalID, mongoCreate, hchecks]
  · intro s inp tsH tsR newId hchecks
    simp [createDigitalID, mongoCreate, hchecks, Except.map]
    exact ⟨rfl, rfl⟩

/-- C9, counterexample to the claim as stated: the same create request (role
"guide", outside the schema enum) FAILS under the durable (Mongo) backend
but SUCCEEDS under the in-memory fallback — the two backends surface
different results for the same call, so they are not behaviorally
interchangeable. -/
theorem claim9_counterexample :
    (createDigitalID true sbEmptyState guideInput 4 4 "id-9" =
      .error "Failed to create digital ID") ∧
    ((createDigitalID false sbEmptyState guideInput 4 4 "id-9").map
        (fun r => r.2.1.role) = .ok "guide") := by
  exact ⟨rfl, rfl⟩

/-- C9, witness: the amended theorem applied to `guideInput` (role outside
the enum) and `mixedCaseInput` (email the Mongo backend normalizes). -/
theorem claim9_witness :
    ((createDigitalID false sbEmptyState guideInput 4 4 "id-9").map
        (fun r => (r.2.1.name, r.2.1.email, r.2.1.role)) =
      .ok (guideInput.name, guideInput.email, guideInput.role)) ∧
    (roleValues.contains guideInput.role = false) ∧
    (createDigitalID true sbEmptyState guideInput 4 4 "id-9" =
      .error "Failed to create digital ID") ∧
    (mongoChecks sbEmptyState.dbDocs (newDoc mixedCaseInput 6 6 "id-10") =
      true) ∧
    ((createDigitalID true sbEmptyState mixedCaseInput 6 6 "id-10").map
        (fun r => (r.2.1.name, r.2.1.email)) =
      .ok (jsTrim mixedCaseInput.name,
           jsToLower (jsTrim mixedCaseInput.email))) := by
  obtain ⟨h1, h2, h3⟩ := claim9_theorem
  exact ⟨h1 sbEmptyState guideInput 4 4 "id-9", by decide,
    h2 sbEmptyState guideInput 4 4 "id-9" (by decide),
    by decide,
    h3 sbEmptyState mixedCaseInput 6 6 "id-10" (by decide)⟩

/-- C7 (amended).  `decode(encode(x)) = x` holds for every token the three
generators produce whose `userId` or `walletAddress` is non-empty.  When
both are empty (e.g. `generateWalletQR("")`), `parseQRCode` rejects the
token — its truthiness guard throws and is caught to `null` — so the
round-trip law fails on that corner of the constructible tokens. -/
theorem claim7_theorem :
    (∀ (u w : String) (ts : Nat) (d : Option Json), (u ≠ "" ∨ w ≠ "") →
      parseQRCode (qrToJson (generateDigitalIDQRData u w ts d)) =
        some (generateDigitalIDQRData u w ts d)) ∧
    (∀ (w : String) (ts : Nat), w ≠ "" →
      parseQRCode (qrToJson (generateWalletQRData w ts)) =
        some (generateWalletQRData w ts)) ∧
    (∀ (tx w : String) (ts : Nat), w ≠ "" →
      parseQRCode (qrToJson (generateTransactionQRData tx w ts)) =
        some (generateTransactionQRData tx w ts)) := by
  refine ⟨?_, ?_, ?_⟩
  · intro u w ts d hne
    have hguard : ¬ (u = "" ∧ w = "") := by tauto
    cases d with
    | none =>
      simp [parseQRCode, qrToJson, generateDigitalIDQRData, getField,
        List.find?, parseQRType, qrTypeName, hguard]
    | some j =>
      simp [parseQRCode, qrToJson, generateDigitalIDQRData, getField,
        List.find?, parseQRType, qrTypeName, hguard]
  · intro w ts hw
    have hguard : ¬ (("" : String) = "" ∧ w = "") := by tauto
    simp [parseQRCode, qrToJson, generateWalletQRData, getField,
      List.find?, parseQRType, qrTypeName, hguard, hw]
  · intro tx w ts hw
    have hguard : ¬ (("" : String) = "" ∧ w = "") := by tauto
    simp [parseQRCode, qrToJson, generateTransactionQRData, getField,
      List.find?, parseQRType, qrTypeName, hguard, hw]

/-- C7, counterexample to the claim as stated: the wallet-variant token for
the empty wallet address — constructible via `generateWalletQR("")` — does
not round-trip: `parseQRCode` returns `null` on its encoding (both `userId`
and `walletAddress` are falsy), so `decode(encode(x)) ≠ x`. -/
theorem claim7_counterexample :
    parseQRCode (qrToJson (generateWalletQRData "" 0)) = none ∧
    parseQRCode (qrToJson (generateWalletQRData "" 0)) ≠
      some (generateWalletQRData "" 0) := by
  refine ⟨rfl, fun hcon => ?_⟩
  rw [show parseQRCode (qrToJson (generateWalletQRData "" 0)) = none
    from rfl] at hcon
  exact Option.noConfusion hcon

/-- C7, witness: the amended round-trip law at concrete tokens of all three
variants. -/
theorem claim7_witness :
    (("u1" : String) ≠ "" ∨ ("0xAAA1" : String) ≠ "") ∧
    (parseQRCode (qrToJson (generateDigitalIDQRData "u1" "0xAAA1" 7 none)) =
      some (generateDigitalIDQRData "u1" "0xAAA1" 7 none)) ∧
    (parseQRCode (qrToJson (generateWalletQRData "0xAAA1" 8)) =
      some (generateWalletQRData "0xAAA1" 8)) ∧
    (parseQRCode (qrToJson (generateTransactionQRData "0xTX" "0xAAA1" 9)) =
      some (generateTransactionQRData "0xTX" "0xAAA1" 9)) := by
  obtain ⟨h1, h2, h3⟩ := claim7_theorem
  exact ⟨Or.inl (by decide),
    h1 "u1" "0xAAA1" 7 none (Or.inl (by decide)),
    h2 "0xAAA1" 8 (by decide),
    h3 "0xTX" "0xAAA1" 9 (by decide)⟩

/-- C8 (confirmed).  `validateQRCodeData` is total — every input yields a
`{valid, identity?}` result (decode failures, missing subjects and wallet
mismatches are all caught to `{valid:false}`, never thrown).  For a token
freshly generated from an existing identity (contract ids are ≥ 1 and
wallets non-empty) it returns `{valid:true}` with that identity; the same
token with its `walletAddress` field mutated to any other value returns
`{valid:false}`. -/
theorem claim8_theorem (reg : List (Nat × IdentityData))
    (identity : IdentityData) (ca ts : String)
    (hreg : lookupIdentity reg identity.id = some identity)
    (hid : identity.id ≠ 0)
    (hw : identity.walletAddress ≠ "") :
    (validateQRCodeData reg (some (generateQRCodeData identity ca ts)) =
      { valid := true, identity := some identity }) ∧
    (∀ w2, w2 ≠ identity.walletAddress →
      validateQRCodeData reg
          (some (setField (generateQRCodeData identity ca ts)
            "walletAddress" (.str w2))) =
        { valid := false, identity := none }) ∧
    (validateQRCodeData reg none = { valid := false, identity := none }) ∧
    (validateQRCodeData [] (some (generateQRCodeData identity ca ts)) =
      { valid := false, identity := none }) := by
  refine ⟨?_, ?_, rfl, ?_⟩
  · simp [validateQRCodeData, generateQRCodeData, getField, List.find?,
      hid, hw, hreg]
  · intro w2 hw2
    by_cases hw2e : w2 = ""
    · simp [validateQRCodeData, generateQRCodeData, setField, getField,
        List.find?, hid, hw2e]
    · simp [validateQRCodeData, generateQRCodeData, setField, getField,
        List.find?, hid, hw2e, hreg, Ne.symm hw2]
  · simp [validateQRCodeData, generateQRCodeData, getField, List.find?,
      hid, hw, lookupIdentity]

/-- C8, witness: the theorem applied to the one-identity registry holding
`qrDemoIdentity`, with the wallet mutated to "0xDEAD" in the second part. -/
theorem claim8_witness :
    (lookupIdentity [(1, qrDemoIdentity)] qrDemoIdentity.id =
      some qrDemoIdentity) ∧
    (qrDemoIdentity.id ≠ 0) ∧ (qrDemoIdentity.walletAddress ≠ "") ∧
    (validateQRCodeData [(1, qrDemoIdentity)]
        (some (generateQRCodeData qrDemoIdentity "0xC" "t")) =
      { valid := true, identity := some qrDemoIdentity }) ∧
    (validateQRCodeData [(1, qrDemoIdentity)]
        (some (setField (generateQRCodeData qrDemoIdentity "0xC" "t")
          "walletAddress" (.str "0xDEAD"))) =
      { valid := false, identity := none }) ∧
    (validateQRCodeData [(1, qrDemoIdentity)] none =
      { valid := false, identity := none }) := by
  have h := claim8_theorem [(1, qrDemoIdentity)] qrDemoIdentity "0xC" "t"
    (by decide) (by decide) (by decide)
  exact ⟨by decide, by decide, by decide, h.1, h.2.1 "0xDEAD" (by decide),
    h.2.2.1⟩

end RakshaSetu
